import Mathlib

/-!
Verification of the firefly-transaction-manager repository:
a shallow embedding of the transaction listing API (`getTransactions`),
manager construction (`NewManager` / `initPersistence` / `NewPolicyEngine`),
manager shutdown (`Close`), channel initialisation (`newManager`), and the
policy-engine registry (`RegisterEngine`), with theorems settling the
specification's claims about them.
-/

set_option autoImplicit false

namespace FFTM

instance {ε α : Type _} [DecidableEq ε] [DecidableEq α] : DecidableEq (Except ε α)
  | Except.error e, Except.error f =>
    if h : e = f then isTrue (by rw [h]) else isFalse (by simp [h])
  | Except.error _, Except.ok _ => isFalse (by simp)
  | Except.ok _, Except.error _ => isFalse (by simp)
  | Except.ok a, Except.ok b =>
    if h : a = b then isTrue (by rw [h]) else isFalse (by simp [h])

/-- Go's `strings.ToLower` restricted to the strings this code compares
against (all ASCII): lower-case every character. Defined by a direct list
map so that it evaluates by `decide`/`rfl` (core's `String.toLower` is
definitionally opaque well-founded recursion but agrees character-wise). -/
def strToLower (s : String) : String := ⟨s.data.map Char.toLower⟩

/-- Fine-grained error model for the i18n errors raised by the code under
verification, plus `other` for opaque errors bubbled up from the persistence
layer or lower-level initialisation. Mirrors `tmmsgs.Msg*` error identities. -/
inductive TMError where
  | invalidSortDirection (dirString : String)
  | paginationErrTxNotFound (id : String)
  | txConflictSignerPending
  | invalidLimit (limitStr : String)
  | unknownPersistence (pType : String)
  | persistenceInitFail (pType : String) (cause : String)
  | policyEngineNotRegistered (name : String)
  | other (msg : String)
  deriving DecidableEq, Repr

/-- `persistence.SortDirection`. -/
inductive SortDirection where
  | ascending
  | descending
  deriving DecidableEq, Repr

/-- The fields of `apitypes.ManagedTX` that `getTransactions` reads.
`Nonce` is a `*fftypes.FFBigInt` and `SequenceID` a `*fftypes.UUID` in Go,
so both are `Option`s here; `id` stands for the stable TxID string. -/
structure ManagedTX where
  id : String
  nonce : Option Int
  sequenceID : Option String
  createdAt : Nat
  deriving DecidableEq, Repr

/-- The persistence operations consumed by `getTransactions`
(`internal/persistence.Persistence`, per the spec's C2 contract). Each Go
method returns `(result, err)`; here that is `Except TMError _`.
`getTransactionByID` can return `(nil, nil)` in Go, hence `Option ManagedTX`. -/
structure Persistence where
  getTransactionByID : String → Except TMError (Option ManagedTX)
  listTransactionsByNonce :
    String → Option Int → Nat → SortDirection → Except TMError (List ManagedTX)
  listTransactionsPending :
    Option String → Nat → SortDirection → Except TMError (List ManagedTX)
  listTransactionsByCreateTime :
    Option ManagedTX → Nat → SortDirection → Except TMError (List ManagedTX)

/-- The `switch strings.ToLower(dirString)` on lines 40-47 of
`transactions.go` (src/unnamed/part_000): `""`, `"desc"`, `"descending"`
select descending (the default), `"asc"`, `"ascending"` select ascending,
anything else is `MsgInvalidSortDirection`. -/
def parseDirection (dirString : String) : Except TMError SortDirection :=
  let l := strToLower dirString
  if l = "" ∨ l = "desc" ∨ l = "descending" then
    Except.ok SortDirection.descending
  else if l = "asc" ∨ l = "ascending" then
    Except.ok SortDirection.ascending
  else
    Except.error (TMError.invalidSortDirection dirString)

/-- Lines 48-58 of `transactions.go`: when `afterStr` is non-empty the cursor
transaction is looked up; a lookup error is propagated, a `nil` result becomes
`MsgPaginationErrTxNotFound`. When `afterStr` is empty, no cursor. -/
def resolveAfter (p : Persistence) (afterStr : String) :
    Except TMError (Option ManagedTX) :=
  if afterStr = "" then
    Except.ok none
  else
    match p.getTransactionByID afterStr with
    | Except.error e => Except.error e
    | Except.ok none => Except.error (TMError.paginationErrTxNotFound afterStr)
    | Except.ok (some tx) => Except.ok (some tx)

/-- `(m *manager) getTransactions` (src/unnamed/part_000 lines 34-77).
`parseLimit` is the manager's limit parser (defined elsewhere in the repo),
taken here as a parameter; everything after it follows the source line by
line: parse limit, parse direction, resolve the `after` cursor, then the
final `switch` on `signer`/`pending` choosing the persistence query, where
`afterNonce` is `afterTx.Nonce` and `afterSequence` is `afterTx.SequenceID`
when the cursor transaction exists. -/
def getTransactions (p : Persistence)
    (parseLimit : String → Except TMError Nat)
    (afterStr limitStr signer : String) (pending : Bool) (dirString : String) :
    Except TMError (List ManagedTX) :=
  match parseLimit limitStr with
  | Except.error e => Except.error e
  | Except.ok limit =>
    match parseDirection dirString with
    | Except.error e => Except.error e
    | Except.ok dir =>
      match resolveAfter p afterStr with
      | Except.error e => Except.error e
      | Except.ok afterTx =>
        if signer ≠ "" ∧ pending = true then
          Except.error TMError.txConflictSignerPending
        else if signer ≠ "" then
          p.listTransactionsByNonce signer (afterTx.bind ManagedTX.nonce) limit dir
        else if pending = true then
          p.listTransactionsPending (afterTx.bind ManagedTX.sequenceID) limit dir
        else
          p.listTransactionsByCreateTime afterTx limit dir

/-- A concrete persistence instance used by witnesses and counterexamples:
one stored transaction `t1`, and list queries that return recognisable
distinct results so the dispatched query is observable. -/
def t1 : ManagedTX :=
  { id := "t1", nonce := some 7, sequenceID := some "s1", createdAt := 5 }

def egPersistence : Persistence where
  getTransactionByID id :=
    if id = "t1" then Except.ok (some t1)
    else if id = "boom" then Except.error (TMError.other "boom")
    else Except.ok none
  listTransactionsByNonce _ _ _ _ := Except.ok [t1]
  listTransactionsPending _ _ _ := Except.ok [t1, t1]
  listTransactionsByCreateTime _ _ _ := Except.ok []

def egParseLimit : String → Except TMError Nat :=
  fun s => if s = "bad" then Except.error (TMError.invalidLimit s) else Except.ok 25

example : getTransactions egPersistence egParseLimit "" "" "sig" false "" =
    Except.ok [t1] := rfl

example : getTransactions egPersistence egParseLimit "t1" "" "" true "asc" =
    Except.ok [t1, t1] := rfl

example : getTransactions egPersistence egParseLimit "missing" "" "sig" true "" =
    Except.error (TMError.paginationErrTxNotFound "missing") := rfl

/-! ## Helper lemmas about `getTransactions` -/

theorem getTransactions_eq (p : Persistence) (pl : String → Except TMError Nat)
    (afterStr limitStr signer dirString : String) (pending : Bool)
    (limit : Nat) (dir : SortDirection) (afterTx : Option ManagedTX)
    (hl : pl limitStr = Except.ok limit)
    (hd : parseDirection dirString = Except.ok dir)
    (ha : resolveAfter p afterStr = Except.ok afterTx) :
    getTransactions p pl afterStr limitStr signer pending dirString =
      if signer ≠ "" ∧ pending = true then
        Except.error TMError.txConflictSignerPending
      else if signer ≠ "" then
        p.listTransactionsByNonce signer (afterTx.bind ManagedTX.nonce) limit dir
      else if pending = true then
        p.listTransactionsPending (afterTx.bind ManagedTX.sequenceID) limit dir
      else
        p.listTransactionsByCreateTime afterTx limit dir := by
  unfold getTransactions
  rw [hl, hd, ha]

theorem getTransactions_limit_error (p : Persistence)
    (pl : String → Except TMError Nat)
    (afterStr limitStr signer dirString : String) (pending : Bool) (e : TMError)
    (hl : pl limitStr = Except.error e) :
    getTransactions p pl afterStr limitStr signer pending dirString =
      Except.error e := by
  unfold getTransactions
  rw [hl]

theorem getTransactions_dir_error (p : Persistence)
    (pl : String → Except TMError Nat)
    (afterStr limitStr signer dirString : String) (pending : Bool)
    (limit : Nat) (e : TMError)
    (hl : pl limitStr = Except.ok limit)
    (hd : parseDirection dirString = Except.error e) :
    getTransactions p pl afterStr limitStr signer pending dirString =
      Except.error e := by
  unfold getTransactions
  rw [hl, hd]

theorem getTransactions_after_error (p : Persistence)
    (pl : String → Except TMError Nat)
    (afterStr limitStr signer dirString : String) (pending : Bool)
    (limit : Nat) (dir : SortDirection) (e : TMError)
    (hl : pl limitStr = Except.ok limit)
    (hd : parseDirection dirString = Except.ok dir)
    (ha : resolveAfter p afterStr = Except.error e) :
    getTransactions p pl afterStr limitStr signer pending dirString =
      Except.error e := by
  unfold getTransactions
  rw [hl, hd, ha]

theorem parseDirection_error_shape (s : String) (e : TMError)
    (h : parseDirection s = Except.error e) :
    e = TMError.invalidSortDirection s := by
  unfold parseDirection at h
  by_cases h1 : strToLower s = "" ∨ strToLower s = "desc" ∨ strToLower s = "descending"
  · simp [h1] at h
  · by_cases h2 : strToLower s = "asc" ∨ strToLower s = "ascending"
    · simp [h1, h2] at h
    · simp [h1, h2] at h
      exact h.symm

theorem parseDirection_total (s : String) :
    parseDirection s = Except.ok SortDirection.descending ∨
    parseDirection s = Except.ok SortDirection.ascending ∨
    parseDirection s = Except.error (TMError.invalidSortDirection s) := by
  unfold parseDirection
  by_cases h1 : strToLower s = "" ∨ strToLower s = "desc" ∨ strToLower s = "descending"
  · exact Or.inl (by simp [h1])
  · by_cases h2 : strToLower s = "asc" ∨ strToLower s = "ascending"
    · exact Or.inr (Or.inl (by simp [h1, h2]))
    · exact Or.inr (Or.inr (by simp [h1, h2]))

theorem resolveAfter_notFound (p : Persistence) (afterStr : String)
    (hne : afterStr ≠ "")
    (h : p.getTransactionByID afterStr = Except.ok none) :
    resolveAfter p afterStr =
      Except.error (TMError.paginationErrTxNotFound afterStr) := by
  unfold resolveAfter
  rw [if_neg hne, h]

theorem resolveAfter_lookup_error (p : Persistence) (afterStr : String)
    (e : TMError) (hne : afterStr ≠ "")
    (h : p.getTransactionByID afterStr = Except.error e) :
    resolveAfter p afterStr = Except.error e := by
  unfold resolveAfter
  rw [if_neg hne, h]

theorem resolveAfter_found (p : Persistence) (afterStr : String) (tx : ManagedTX)
    (hne : afterStr ≠ "")
    (h : p.getTransactionByID afterStr = Except.ok (some tx)) :
    resolveAfter p afterStr = Except.ok (some tx) := by
  unfold resolveAfter
  rw [if_neg hne, h]

/-! ## Claim theorems: transaction listing -/

/-- C1: with the limit parsed, the direction recognised and the `after`
cursor resolved, `getTransactions` dispatches as claimed: non-empty `signer`
(without `pending`) goes to `ListTransactionsByNonce` with the cursor being
the `after` transaction's nonce; `pending` goes to `ListTransactionsPending`
with the cursor being the `after` transaction's sequenceID; neither goes to
`ListTransactionsByCreateTime` with the `after` transaction itself as cursor.
The last two conjuncts pin down the resolved cursor: `none` when `after` is
empty, and exactly the transaction stored under the `after` ID otherwise. -/
theorem getTransactions_dispatch (p : Persistence)
    (pl : String → Except TMError Nat)
    (afterStr limitStr signer dirString : String) (pending : Bool)
    (limit : Nat) (dir : SortDirection) (afterTx : Option ManagedTX)
    (hl : pl limitStr = Except.ok limit)
    (hd : parseDirection dirString = Except.ok dir)
    (ha : resolveAfter p afterStr = Except.ok afterTx) :
    (signer ≠ "" → pending = false →
      getTransactions p pl afterStr limitStr signer pending dirString =
        p.listTransactionsByNonce signer (afterTx.bind ManagedTX.nonce) limit dir) ∧
    (signer = "" → pending = true →
      getTransactions p pl afterStr limitStr signer pending dirString =
        p.listTransactionsPending (afterTx.bind ManagedTX.sequenceID) limit dir) ∧
    (signer = "" → pending = false →
      getTransactions p pl afterStr limitStr signer pending dirString =
        p.listTransactionsByCreateTime afterTx limit dir) ∧
    (afterStr = "" → afterTx = none) ∧
    (∀ tx : ManagedTX, afterStr ≠ "" →
      p.getTransactionByID afterStr = Except.ok (some tx) → afterTx = some tx) := by
  refine ⟨?_, ?_, ?_, ?_, ?_⟩
  · intro hs hp
    rw [getTransactions_eq p pl afterStr limitStr signer dirString pending
      limit dir afterTx hl hd ha]
    simp [hs, hp]
  · intro hs hp
    rw [getTransactions_eq p pl afterStr limitStr signer dirString pending
      limit dir afterTx hl hd ha]
    simp [hs, hp]
  · intro hs hp
    rw [getTransactions_eq p pl afterStr limitStr signer dirString pending
      limit dir afterTx hl hd ha]
    simp [hs, hp]
  · intro hempty
    unfold resolveAfter at ha
    rw [if_pos hempty] at ha
    exact (Except.ok.inj ha).symm
  · intro tx hne htx
    unfold resolveAfter at ha
    rw [if_neg hne, htx] at ha
    exact (Except.ok.inj ha).symm

/-- Witness for C1 on concrete data: cursor `t1` exists, signer query gets
cursor nonce 7, pending query gets cursor sequence `s1`. -/
theorem getTransactions_dispatch_witness :
    egParseLimit "" = Except.ok 25 ∧
    parseDirection "" = Except.ok SortDirection.descending ∧
    resolveAfter egPersistence "t1" = Except.ok (some t1) ∧
    getTransactions egPersistence egParseLimit "t1" "" "sig" false "" =
      egPersistence.listTransactionsByNonce "sig" (some 7) 25
        SortDirection.descending := by
  have h := getTransactions_dispatch egPersistence egParseLimit "t1" "" "sig" ""
    false 25 SortDirection.descending (some t1) (by decide) (by decide) (by decide)
  exact ⟨by decide, by decide, by decide, h.1 (by decide) rfl⟩

/-- C2 as stated is false: with both `signer` non-empty and `pending` set but
a missing `after` cursor, the call fails with `MsgPaginationErrTxNotFound`
(404), not `MsgTXConflictSignerPending`. -/
theorem getTransactions_conflict_counterexample :
    getTransactions egPersistence egParseLimit "missing" "" "sig" true "desc" =
      Except.error (TMError.paginationErrTxNotFound "missing") ∧
    getTransactions egPersistence egParseLimit "missing" "" "sig" true "desc" ≠
      Except.error TMError.txConflictSignerPending := by
  exact ⟨by decide, by decide⟩

/-- C2 (amended): provided the limit parses, the direction is recognised and
the `after` cursor (when given) resolves, every call with a non-empty
`signer` and the `pending` flag set returns no list and fails with
`MsgTXConflictSignerPending`. -/
theorem getTransactions_signer_pending_conflict (p : Persistence)
    (pl : String → Except TMError Nat)
    (afterStr limitStr signer dirString : String) (pending : Bool)
    (limit : Nat) (dir : SortDirection) (afterTx : Option ManagedTX)
    (hl : pl limitStr = Except.ok limit)
    (hd : parseDirection dirString = Except.ok dir)
    (ha : resolveAfter p afterStr = Except.ok afterTx)
    (hs : signer ≠ "") (hp : pending = true) :
    getTransactions p pl afterStr limitStr signer pending dirString =
      Except.error TMError.txConflictSignerPending := by
  rw [getTransactions_eq p pl afterStr limitStr signer dirString pending
    limit dir afterTx hl hd ha]
  rw [if_pos ⟨hs, hp⟩]

/-- Witness for the amended C2: signer and pending collide on an otherwise
valid request (existing cursor `t1`). -/
theorem getTransactions_signer_pending_conflict_witness :
    getTransactions egPersistence egParseLimit "t1" "" "sig" true "asc" =
      Except.error TMError.txConflictSignerPending := by
  exact getTransactions_signer_pending_conflict egPersistence egParseLimit
    "t1" "" "sig" "asc" true 25 SortDirection.ascending (some t1)
    (by decide) (by decide) (by decide) (by decide) rfl

/-- C3: with limit and direction valid and a non-empty `after` parameter, a
`nil`-and-no-error lookup result yields `MsgPaginationErrTxNotFound`, and a
lookup error is propagated as-is. -/
theorem getTransactions_cursor_missing (p : Persistence)
    (pl : String → Except TMError Nat)
    (afterStr limitStr signer dirString : String) (pending : Bool)
    (limit : Nat) (dir : SortDirection)
    (hl : pl limitStr = Except.ok limit)
    (hd : parseDirection dirString = Except.ok dir)
    (hne : afterStr ≠ "") :
    (p.getTransactionByID afterStr = Except.ok none →
      getTransactions p pl afterStr limitStr signer pending dirString =
        Except.error (TMError.paginationErrTxNotFound afterStr)) ∧
    (∀ e : TMError, p.getTransactionByID afterStr = Except.error e →
      getTransactions p pl afterStr limitStr signer pending dirString =
        Except.error e) := by
  constructor
  · intro hnone
    exact getTransactions_after_error p pl afterStr limitStr signer dirString
      pending limit dir _ hl hd (resolveAfter_notFound p afterStr hne hnone)
  · intro e herr
    exact getTransactions_after_error p pl afterStr limitStr signer dirString
      pending limit dir e hl hd (resolveAfter_lookup_error p afterStr e hne herr)

/-- Witness for C3: a missing cursor gives 404, and the concrete lookup error
for ID `boom` is passed through. -/
theorem getTransactions_cursor_missing_witness :
    getTransactions egPersistence egParseLimit "missing" "" "" false "" =
      Except.error (TMError.paginationErrTxNotFound "missing") ∧
    getTransactions egPersistence egParseLimit "boom" "" "" false "" =
      Except.error (TMError.other "boom") := by
  constructor
  · exact (getTransactions_cursor_missing egPersistence egParseLimit "missing"
      "" "" "" false 25 SortDirection.descending (by decide) (by decide)
      (by decide)).1 (by decide)
  · exact (getTransactions_cursor_missing egPersistence egParseLimit "boom"
      "" "" "" false 25 SortDirection.descending (by decide) (by decide)
      (by decide)).2 (TMError.other "boom") (by decide)

/-- C4: the empty direction and `desc` select descending, `asc` selects
ascending, and any direction string not recognised as ascending or
descending makes the call fail with `MsgInvalidSortDirection` instead of
returning a list (given the limit parsed, which is checked first). -/
theorem getTransactions_direction_validation :
    parseDirection "" = Except.ok SortDirection.descending ∧
    parseDirection "desc" = Except.ok SortDirection.descending ∧
    parseDirection "asc" = Except.ok SortDirection.ascending ∧
    ∀ (p : Persistence) (pl : String → Except TMError Nat)
      (afterStr limitStr signer dirString : String) (pending : Bool)
      (limit : Nat),
      pl limitStr = Except.ok limit →
      (∀ d : SortDirection, parseDirection dirString ≠ Except.ok d) →
      getTransactions p pl afterStr limitStr signer pending dirString =
        Except.error (TMError.invalidSortDirection dirString) := by
  refine ⟨by decide, by decide, by decide, ?_⟩
  intro p pl afterStr limitStr signer dirString pending limit hl hbad
  rcases parseDirection_total dirString with h | h | h
  · exact absurd h (hbad SortDirection.descending)
  · exact absurd h (hbad SortDirection.ascending)
  · exact getTransactions_dir_error p pl afterStr limitStr signer dirString
      pending limit _ hl h

/-- Witness for C4: the unrecognised direction `sideways` is rejected with
`MsgInvalidSortDirection` even though every other parameter is valid. -/
theorem getTransactions_direction_validation_witness :
    getTransactions egPersistence egParseLimit "" "" "" false "sideways" =
      Except.error (TMError.invalidSortDirection "sideways") := by
  exact getTransactions_direction_validation.2.2.2 egPersistence egParseLimit
    "" "" "" "sideways" false 25 (by decide) (fun d => by cases d <;> decide)

/-- C9: direction parsing is case-insensitive and accepts the long forms:
any string lower-casing to the empty string, `desc` or `descending` selects
descending, and any string lower-casing to `asc` or `ascending` selects
ascending. -/
theorem parseDirection_case_insensitive :
    (∀ s : String,
      strToLower s = "" ∨ strToLower s = "desc" ∨ strToLower s = "descending" →
      parseDirection s = Except.ok SortDirection.descending) ∧
    (∀ s : String,
      strToLower s = "asc" ∨ strToLower s = "ascending" →
      parseDirection s = Except.ok SortDirection.ascending) := by
  constructor
  · intro s h
    unfold parseDirection
    rw [if_pos h]
  · intro s h
    unfold parseDirection
    have hne : ¬(strToLower s = "" ∨ strToLower s = "desc" ∨
        strToLower s = "descending") := by
      rcases h with h | h <;> rw [h] <;> decide
    rw [if_neg hne, if_pos h]

/-- Witness for C9: mixed-case long forms parse to the claimed directions. -/
theorem parseDirection_case_insensitive_witness :
    parseDirection "DeScEnDiNg" = Except.ok SortDirection.descending ∧
    parseDirection "ASC" = Except.ok SortDirection.ascending := by
  exact ⟨parseDirection_case_insensitive.1 "DeScEnDiNg" (by decide),
    parseDirection_case_insensitive.2 "ASC" (by decide)⟩

/-- C8: `getTransactions` validates in a fixed order — limit, then direction,
then cursor lookup, then the signer/pending conflict — so only the first
failure in that order is reported; in particular signer+pending with a
missing cursor yields the 404 pagination error, not the 400 conflict. -/
theorem getTransactions_validation_order :
    (∀ (p : Persistence) (pl : String → Except TMError Nat)
      (afterStr limitStr signer dirString : String) (pending : Bool)
      (e : TMError),
      pl limitStr = Except.error e →
      getTransactions p pl afterStr limitStr signer pending dirString =
        Except.error e) ∧
    (∀ (p : Persistence) (pl : String → Except TMError Nat)
      (afterStr limitStr signer dirString : String) (pending : Bool)
      (limit : Nat) (e : TMError),
      pl limitStr = Except.ok limit →
      parseDirection dirString = Except.error e →
      getTransactions p pl afterStr limitStr signer pending dirString =
        Except.error e) ∧
    (∀ (p : Persistence) (pl : String → Except TMError Nat)
      (afterStr limitStr signer dirString : String) (pending : Bool)
      (limit : Nat) (dir : SortDirection) (e : TMError),
      pl limitStr = Except.ok limit →
      parseDirection dirString = Except.ok dir →
      resolveAfter p afterStr = Except.error e →
      getTransactions p pl afterStr limitStr signer pending dirString =
        Except.error e) ∧
    (∀ (p : Persistence) (pl : String → Except TMError Nat)
      (afterStr limitStr signer dirString : String)
      (limit : Nat) (dir : SortDirection),
      pl limitStr = Except.ok limit →
      parseDirection dirString = Except.ok dir →
      afterStr ≠ "" →
      p.getTransactionByID afterStr = Except.ok none →
      signer ≠ "" →
      getTransactions p pl afterStr limitStr signer true dirString =
        Except.error (TMError.paginationErrTxNotFound afterStr) ∧
      getTransactions p pl afterStr limitStr signer true dirString ≠
        Except.error TMError.txConflictSignerPending) := by
  refine ⟨?_, ?_, ?_, ?_⟩
  · intro p pl afterStr limitStr signer dirString pending e hl
    exact getTransactions_limit_error p pl afterStr limitStr signer dirString
      pending e hl
  · intro p pl afterStr limitStr signer dirString pending limit e hl hd
    exact getTransactions_dir_error p pl afterStr limitStr signer dirString
      pending limit e hl hd
  · intro p pl afterStr limitStr signer dirString pending limit dir e hl hd ha
    exact getTransactions_after_error p pl afterStr limitStr signer dirString
      pending limit dir e hl hd ha
  · intro p pl afterStr limitStr signer dirString limit dir hl hd hne hnone hs
    have h404 := getTransactions_after_error p pl afterStr limitStr signer
      dirString true limit dir _ hl hd (resolveAfter_notFound p afterStr hne hnone)
    refine ⟨h404, ?_⟩
    rw [h404]
    intro hcontra
    exact absurd (Except.error.inj hcontra)
      (by simp [TMError.paginationErrTxNotFound])

/-- Witness for C8: with a bad limit everything else is ignored; with limit ok
and a bad direction the direction error wins; and signer+pending with a
missing cursor returns 404 rather than the conflict error. -/
theorem getTransactions_validation_order_witness :
    getTransactions egPersistence egParseLimit "missing" "bad" "sig" true "oops" =
      Except.error (TMError.invalidLimit "bad") ∧
    getTransactions egPersistence egParseLimit "missing" "" "sig" true "oops" =
      Except.error (TMError.invalidSortDirection "oops") ∧
    getTransactions egPersistence egParseLimit "missing" "" "sig" true "asc" =
      Except.error (TMError.paginationErrTxNotFound "missing") := by
  refine ⟨?_, ?_, ?_⟩
  · exact getTransactions_validation_order.1 egPersistence egParseLimit
      "missing" "bad" "sig" "oops" true (TMError.invalidLimit "bad") (by decide)
  · exact getTransactions_validation_order.2.1 egPersistence egParseLimit
      "missing" "" "sig" "oops" true 25 (TMError.invalidSortDirection "oops")
      (by decide) (by decide)
  · exact (getTransactions_validation_order.2.2.2 egPersistence egParseLimit
      "missing" "" "sig" "asc" 25 SortDirection.ascending (by decide)
      (by decide) (by decide) (by decide) (by decide)).1

/-! ## Policy-engine registry (`pkg/policyengines`) and manager construction
(`pkg/fftm/manager.go`) -/

/-- A config section, identified by its path of section names
(`config.Section` in firefly-common; only `SubSection` is used here). -/
abbrev ConfigSection := List String

/-- `config.Section.SubSection(name)`. -/
def ConfigSection.subSection (base : ConfigSection) (name : String) :
    ConfigSection :=
  base ++ [name]

/-- `tmconfig.PolicyEngineBaseConfig`, the root section the registry hangs
engine config under. -/
def policyEngineBaseConfig : ConfigSection := ["policyEngine"]

/-- `policyengines.Factory`: `Name()` and `NewPolicyEngine(ctx, conf)`.
The `InitConfig(conf)` method is a configuration side effect; the section it
is invoked on is recorded by `RegisterEngine` below. `E` is the engine type
built by the factory. -/
structure Factory (E : Type) where
  name : String
  newPolicyEngine : ConfigSection → Except TMError E

/-- The process-wide `policyEngines` map. A Go map write overwrites, which is
modelled by prepending: lookup returns the most recently stored binding. -/
abbrev Registry (E : Type) := List (String × Factory E)

def lookupFactory {E : Type} : Registry E → String → Option (Factory E)
  | [], _ => none
  | (k, f) :: rest, name => if k = name then some f else lookupFactory rest name

/-- `policyengines.NewPolicyEngine` (src/pkg/ffcapi/transaction_send.go
lines 65-71): look the name up in the registry; missing →
`MsgPolicyEngineNotRegistered`; otherwise build via the factory on
`baseConfig.SubSection(name)`. -/
def NewPolicyEngine {E : Type} (reg : Registry E) (baseConfig : ConfigSection)
    (name : String) : Except TMError E :=
  match lookupFactory reg name with
  | none => Except.error (TMError.policyEngineNotRegistered name)
  | some factory => factory.newPolicyEngine (baseConfig.subSection name)

/-- The observable outcome of `RegisterEngine`: the updated registry, the
config section the factory's `InitConfig` was invoked on, and the returned
name. -/
structure RegisterResult (E : Type) where
  registry : Registry E
  initConfigSection : ConfigSection
  returnedName : String

/-- `policyengines.RegisterEngine` (lines 79-84): store the factory under
`factory.Name()`, call `factory.InitConfig` on
`tmconfig.PolicyEngineBaseConfig.SubSection(name)`, return the name. -/
def RegisterEngine {E : Type} (reg : Registry E) (factory : Factory E) :
    RegisterResult E :=
  { registry := (factory.name, factory) :: reg
    initConfigSection := policyEngineBaseConfig.subSection factory.name
    returnedName := factory.name }

/-- The opaque handle returned by `persistence.NewLevelDBPersistence`. -/
structure PersistenceHandle where
  id : Nat
  deriving DecidableEq, Repr

/-- `(m *manager) initPersistence` (src/pkg/fftm/manager.go lines 165-176):
switch on `persistence.type`; `leveldb` runs `NewLevelDBPersistence`
(its outcome is the `newLevelDB` argument), wrapping a failure in
`MsgPersistenceInitFail`; any other value is `MsgUnknownPersistence`. -/
def initPersistence (pType : String)
    (newLevelDB : Except String PersistenceHandle) :
    Except TMError PersistenceHandle :=
  if pType = "leveldb" then
    match newLevelDB with
    | Except.error cause => Except.error (TMError.persistenceInitFail pType cause)
    | Except.ok p => Except.ok p
  else
    Except.error (TMError.unknownPersistence pType)

structure ManagerHandle (E : Type) where
  policyEngine : E
  persistence : PersistenceHandle

/-- `fftm.NewManager` (manager.go lines 107-117): `newManager` cannot fail;
`initServices` builds the confirmation manager and WebSocket server (which
cannot fail), the policy engine via `policyengines.NewPolicyEngine` on
`tmconfig.PolicyEngineBaseConfig` and the configured name, and the HTTP API
server (whose outcome is the `newHTTPServer` argument); then
`initPersistence` runs. The first error aborts with no manager. -/
def NewManager {E : Type} (reg : Registry E) (engineName : String)
    (newHTTPServer : Except TMError Unit) (pType : String)
    (newLevelDB : Except String PersistenceHandle) :
    Except TMError (ManagerHandle E) :=
  match NewPolicyEngine reg policyEngineBaseConfig engineName with
  | Except.error e => Except.error e
  | Except.ok eng =>
    match newHTTPServer with
    | Except.error e => Except.error e
    | Except.ok _ =>
      match initPersistence pType newLevelDB with
      | Except.error e => Except.error e
      | Except.ok pers => Except.ok { policyEngine := eng, persistence := pers }

/-- A concrete factory over `E := Nat` for witnesses: it records (as the
engine value) the length of the section path it was built on. -/
def egFactory : Factory Nat :=
  { name := "simple", newPolicyEngine := fun conf => Except.ok conf.length }

/-- A second factory under the same name, to exercise overwriting. -/
def egFactoryOld : Factory Nat :=
  { name := "simple", newPolicyEngine := fun _ => Except.error (TMError.other "old") }

/-- C5: `NewManager` fails with `MsgPolicyEngineNotRegistered` whenever the
configured engine name has no registered factory, fails with
`MsgUnknownPersistence` whenever `persistence.type` is not `leveldb`
(with every earlier step succeeding), and succeeds when the engine name is
registered, its factory builds, the HTTP server comes up, the type is
`leveldb` and LevelDB opens. The first conjunct states the persistence
switch on its own: any type other than `leveldb` is rejected outright. -/
theorem newManager_config_validation :
    (∀ (pType : String) (ldb : Except String PersistenceHandle),
      pType ≠ "leveldb" →
      initPersistence pType ldb =
        Except.error (TMError.unknownPersistence pType)) ∧
    (∀ (E : Type) (reg : Registry E) (engineName : String)
      (hs : Except TMError Unit) (pType : String)
      (ldb : Except String PersistenceHandle),
      lookupFactory reg engineName = none →
      NewManager reg engineName hs pType ldb =
        Except.error (TMError.policyEngineNotRegistered engineName)) ∧
    (∀ (E : Type) (reg : Registry E) (engineName : String) (f : Factory E)
      (eng : E) (pType : String) (ldb : Except String PersistenceHandle),
      lookupFactory reg engineName = some f →
      f.newPolicyEngine (policyEngineBaseConfig.subSection engineName) =
        Except.ok eng →
      pType ≠ "leveldb" →
      NewManager reg engineName (Except.ok ()) pType ldb =
        Except.error (TMError.unknownPersistence pType)) ∧
    (∀ (E : Type) (reg : Registry E) (engineName : String) (f : Factory E)
      (eng : E) (p : PersistenceHandle),
      lookupFactory reg engineName = some f →
      f.newPolicyEngine (policyEngineBaseConfig.subSection engineName) =
        Except.ok eng →
      NewManager reg engineName (Except.ok ()) "leveldb" (Except.ok p) =
        Except.ok { policyEngine := eng, persistence := p }) := by
  refine ⟨?_, ?_, ?_, ?_⟩
  · intro pType ldb hne
    unfold initPersistence
    rw [if_neg hne]
  · intro E reg engineName hs pType ldb hnone
    unfold NewManager NewPolicyEngine
    rw [hnone]
  · intro E reg engineName f eng pType ldb hf hok hne
    unfold NewManager NewPolicyEngine
    rw [hf]
    dsimp only
    rw [hok]
    dsimp only
    unfold initPersistence
    rw [if_neg hne]
  · intro E reg engineName f eng p hf hok
    unfold NewManager NewPolicyEngine
    rw [hf]
    dsimp only
    rw [hok]
    rfl

/-- Witness for C5 on concrete data: an empty registry rejects the name
`simple`; with `simple` registered, a `postgres` persistence type is
rejected, and `leveldb` succeeds end to end. -/
theorem newManager_config_validation_witness :
    NewManager ([] : Registry Nat) "simple" (Except.ok ()) "leveldb"
        (Except.ok ⟨0⟩) =
      Except.error (TMError.policyEngineNotRegistered "simple") ∧
    NewManager [("simple", egFactory)] "simple" (Except.ok ()) "postgres"
        (Except.ok ⟨0⟩) =
      Except.error (TMError.unknownPersistence "postgres") ∧
    NewManager [("simple", egFactory)] "simple" (Except.ok ()) "leveldb"
        (Except.ok ⟨4⟩) =
      Except.ok { policyEngine := 2, persistence := ⟨4⟩ } := by
  refine ⟨?_, ?_, ?_⟩
  · exact newManager_config_validation.2.1 Nat [] "simple" (Except.ok ())
      "leveldb" (Except.ok ⟨0⟩) rfl
  · exact newManager_config_validation.2.2.1 Nat [("simple", egFactory)]
      "simple" egFactory 2 "postgres" (Except.ok ⟨0⟩) rfl rfl (by decide)
  · exact newManager_config_validation.2.2.2 Nat [("simple", egFactory)]
      "simple" egFactory 2 ⟨4⟩ rfl rfl

/-- C10: `RegisterEngine` returns the factory's name, invokes `InitConfig`
on the `policyEngine` base config's subsection for that name, and stores the
factory under that name overwriting any previous binding (for any prior
registry, lookup of the name now yields exactly this factory); a subsequent
`NewPolicyEngine` on the base config and that name builds through this
factory on the same named subsection. -/
theorem registerEngine_spec :
    ∀ (E : Type) (reg : Registry E) (factory : Factory E),
      (RegisterEngine reg factory).returnedName = factory.name ∧
      (RegisterEngine reg factory).initConfigSection =
        policyEngineBaseConfig.subSection factory.name ∧
      lookupFactory (RegisterEngine reg factory).registry factory.name =
        some factory ∧
      NewPolicyEngine (RegisterEngine reg factory).registry
          policyEngineBaseConfig factory.name =
        factory.newPolicyEngine
          (policyEngineBaseConfig.subSection factory.name) := by
  intro E reg factory
  have hlook : lookupFactory (RegisterEngine reg factory).registry
      factory.name = some factory := by
    unfold RegisterEngine lookupFactory
    rw [if_pos rfl]
  refine ⟨rfl, rfl, hlook, ?_⟩
  unfold NewPolicyEngine
  rw [hlook]

/-- Concrete check of overwriting: the stale factory registered first is
shadowed, and building picks the new factory on section
`policyEngine.simple`. -/
theorem registerEngine_overwrites :
    lookupFactory (RegisterEngine [("simple", egFactoryOld)] egFactory).registry
        "simple" = some egFactory ∧
    NewPolicyEngine (RegisterEngine [("simple", egFactoryOld)] egFactory).registry
        policyEngineBaseConfig "simple" = Except.ok 2 ∧
    (RegisterEngine [("simple", egFactoryOld)] egFactory).initConfigSection =
      ["policyEngine", "simple"] ∧
    (RegisterEngine [("simple", egFactoryOld)] egFactory).returnedName =
      "simple" := by
  exact ⟨rfl, rfl, rfl, rfl⟩

/-! ## `newManager` field initialisation and `Close` (manager.go) -/

/-- The configuration values `newManager` reads (durations as opaque Nats). -/
structure TMConfig where
  policyLoopInterval : Nat
  errorHistoryCount : Int
  maxInFlight : Int
  nonceStateTimeout : Nat
  retryInitDelay : Nat
  retryMaxDelay : Nat
  deriving DecidableEq, Repr

/-- The manager fields assigned by `newManager` (manager.go lines 119-141)
that this development reasons about: the initially-empty maps, and the
buffer capacity of each channel it makes (`apiServerDone` is unbuffered,
`inflightStale` and `inflightUpdate` are `make(chan bool, 1)`). -/
structure ManagerInit where
  lockedNonces : List (String × Nat)
  apiServerDoneCap : Nat
  eventStreams : List (String × Nat)
  streamsByName : List (String × String)
  policyLoopInterval : Nat
  errorHistoryCount : Int
  maxInFlight : Int
  nonceStateTimeout : Nat
  inflightStaleCap : Nat
  inflightUpdateCap : Nat
  deriving DecidableEq, Repr

/-- `fftm.newManager` (manager.go lines 119-141), restricted to the field
assignments (the connector and retry sub-structure carry no claim here). -/
def newManager (cfg : TMConfig) : ManagerInit :=
  { lockedNonces := []
    apiServerDoneCap := 0
    eventStreams := []
    streamsByName := []
    policyLoopInterval := cfg.policyLoopInterval
    errorHistoryCount := cfg.errorHistoryCount
    maxInFlight := cfg.maxInFlight
    nonceStateTimeout := cfg.nonceStateTimeout
    inflightStaleCap := 1
    inflightUpdateCap := 1 }

/-- Modelled from the spec: the signalling writes to `inflightStale` /
`inflightUpdate` (`markInflightStale` / `markInflightUpdate` are not among
the provided sources). Per the spec's concurrency section the channels have
"capacity 1, coalescing writes": a signal is dropped when the buffer is
full, so `queued` never exceeds `cap`. -/
structure SignalChan where
  cap : Nat
  queued : Nat
  deriving DecidableEq, Repr

def trySend (c : SignalChan) : SignalChan :=
  if c.queued < c.cap then { c with queued := c.queued + 1 } else c

def sendN (c : SignalChan) : Nat → SignalChan
  | 0 => c
  | n + 1 => sendN (trySend c) n

theorem sendN_full (n : Nat) : sendN { cap := 1, queued := 1 } n =
    { cap := 1, queued := 1 } := by
  induction n with
  | zero => rfl
  | succ n ih =>
    show sendN (trySend { cap := 1, queued := 1 }) n = _
    rw [show trySend { cap := 1, queued := 1 } = { cap := 1, queued := 1 }
      from rfl]
    exact ih

/-- C7: `newManager` always makes `inflightStale` and `inflightUpdate` with
buffer capacity exactly 1, and with the spec's non-blocking send any number
`n ≥ 1` of signals sent into such a channel before the policy loop drains it
coalesce into exactly one queued signal. -/
theorem newManager_signal_channels (cfg : TMConfig) :
    (newManager cfg).inflightStaleCap = 1 ∧
    (newManager cfg).inflightUpdateCap = 1 ∧
    ∀ n : Nat, 1 ≤ n →
      (sendN { cap := (newManager cfg).inflightStaleCap, queued := 0 } n).queued
        = 1 := by
  refine ⟨rfl, rfl, ?_⟩
  intro n hn
  obtain ⟨m, rfl⟩ := Nat.exists_eq_add_of_le hn
  rw [Nat.add_comm]
  show (sendN (trySend { cap := 1, queued := 0 }) m).queued = 1
  rw [show trySend { cap := 1, queued := 0 } =
    ({ cap := 1, queued := 1 } : SignalChan) from rfl]
  rw [sendN_full]

/-- A sample configuration for the C7 witness. -/
def egConfig : TMConfig :=
  { policyLoopInterval := 0, errorHistoryCount := 25, maxInFlight := 100
    nonceStateTimeout := 0, retryInitDelay := 0, retryMaxDelay := 0 }

/-- Witness for C7: three back-to-back signals on the freshly made
`inflightStale` channel leave exactly one queued. -/
theorem newManager_signal_channels_witness :
    (sendN { cap := (newManager egConfig).inflightStaleCap, queued := 0 }
      3).queued = 1 := by
  exact (newManager_signal_channels egConfig).2.2 3 (by decide)

/-- The observable steps of `manager.Close`, in program order. -/
inductive CloseAction where
  | cancelContext
  | waitAPIServerDone
  | waitPolicyLoopDone
  | waitBlockListenerDone
  | lockMux
  | snapshotStream (sid : String)
  | unlockMux
  | stopStream (sid : String)
  | closePersistence
  deriving DecidableEq, Repr

/-- `(m *manager) Close` (manager.go lines 222-241) as the ordered trace of
its blocking/observable operations: cancel the root context; then — only
when `m.started` — receive from `apiServerDone`, `policyLoopDone` and
`blockListenerDone`, snapshot `eventStreams` under the mutex, and stop each
snapshotted stream; finally close persistence. `streams` is the contents of
`m.eventStreams` in iteration order. -/
def closeTrace (started : Bool) (streams : List String) : List CloseAction :=
  CloseAction.cancelContext ::
    ((if started then
        [CloseAction.waitAPIServerDone, CloseAction.waitPolicyLoopDone,
          CloseAction.waitBlockListenerDone, CloseAction.lockMux] ++
          streams.map CloseAction.snapshotStream ++ [CloseAction.unlockMux] ++
          streams.map CloseAction.stopStream
      else []) ++ [CloseAction.closePersistence])

/-- C6 as stated is false: `Close` on a manager that was never started (or
already closed) skips the waits and the stream shutdown — the trace is just
the context cancel followed by the persistence close, with no
`apiServerDone` wait. -/
theorem close_counterexample :
    closeTrace false ["es1"] =
      [CloseAction.cancelContext, CloseAction.closePersistence] ∧
    CloseAction.waitAPIServerDone ∉ closeTrace false ["es1"] ∧
    CloseAction.stopStream "es1" ∉ closeTrace false ["es1"] := by
  exact ⟨rfl, by decide, by decide⟩

/-- C6 (amended): when the manager is in the started state, `Close` performs
in order: cancel the root context; wait for the API server, the policy loop
and the block listener; snapshot the event streams under the mutex; stop
each snapshotted stream; and close persistence — no step skipped. When it
is not started, only the cancel and the persistence close are performed. -/
theorem close_order (streams : List String) :
    closeTrace true streams =
      [CloseAction.cancelContext, CloseAction.waitAPIServerDone,
        CloseAction.waitPolicyLoopDone, CloseAction.waitBlockListenerDone,
        CloseAction.lockMux] ++ streams.map CloseAction.snapshotStream ++
        ([CloseAction.unlockMux] ++ streams.map CloseAction.stopStream ++
          [CloseAction.closePersistence]) ∧
    closeTrace false streams =
      [CloseAction.cancelContext, CloseAction.closePersistence] := by
  constructor
  · show CloseAction.cancelContext :: _ = _
    simp [closeTrace]
  · rfl

end FFTM
